import Mathlib

/-!
Shallow embedding of the ROI-calculator projection and metrics engine
(`CalculatorController`: `generateDynamicMonthlyData`, `getGrowthFactors`,
`getSeasonalMultiplier`, `calculateDynamicPaybackPeriod`,
`generateRevenueCostChartData`, `generateRoiGrowthChartData`,
`generatePerformanceMetrics`).

Numbers are embedded as `ℚ` (the source computes with JS numbers; the
quantities involved are exact decimal fractions).  `Math.round x` becomes
`⌊x + 1/2⌋ : ℤ` (round half toward +∞, which is JS `Math.round` on the
values considered).  `Math.ceil (n / m)` on natural list lengths becomes
`(n + m - 1) / m` in `ℕ`.

The one place where JS special values matter is `generatePerformanceMetrics`,
whose `profitMargin` is `x || 0`: there division is embedded with a `JSNum`
type carrying `Infinity`, `-Infinity` and `NaN`, with JS truthiness.

The monthly generator's loop state is expressed by closed recursive
functions: `currentRevenue` (the loop variable of the same name),
`currentCost`, `adjustedRevenue`, and `cumulativeProfitStored` /
`storedRevenue` for the reads `monthlyData[monthlyData.length-1].cumulativeProfit`
and `monthlyData[month-2]?.revenue` of already-pushed (hence rounded) points.
The two `Math.random()` draws per iteration are the injected draw sequences
`u` (growth variance, `Math.random()*0.1-0.05`, used only for `month > 1`)
and `v` (cost variation), indexed by the 1-based month.
-/

/-- JS `Math.round` on the exact rational value: `⌊x + 1/2⌋`. -/
def mathRound (x : ℚ) : ℤ := ⌊x + 1/2⌋

/-- JS `Math.ceil (n / m)` for natural `n`, `m` (used on list lengths). -/
def mathCeilDiv (n m : ℕ) : ℕ := (n + m - 1) / m

/-- Growth factors row: `{ monthlyGrowth, maxCapacity }`. -/
structure GrowthFactors where
  monthlyGrowth : ℚ
  maxCapacity : ℚ
deriving DecidableEq, Repr

/-- `getGrowthFactors(business_model)`: lookup of the literal keys of the
source's `factors` object; `factors[business_model] || default` falls back to
`{ monthlyGrowth: 0.08, maxCapacity: 1.2 }` for `null`/unknown labels. -/
def getGrowthFactors (business_model : Option String) : GrowthFactors :=
  match business_model with
  | some "B2B Manufacturing" => ⟨8/100, 12/10⟩
  | some "Penjualan Langsung (B2C)" => ⟨12/100, 15/10⟩
  | some "Layanan Berlangganan" => ⟨5/100, 11/10⟩
  | some "Waralaba (Franchise)" => ⟨6/100, 13/10⟩
  | some "Produksi (B2B)" => ⟨7/100, 115/100⟩
  | _ => ⟨8/100, 12/10⟩

/-- `getSeasonalMultiplier(month)`: fixed table indexed by
`((month - 1) % 12) + 1`, default `1.0` (the generator only calls it with
`month ≥ 1`, where `ℕ` and JS arithmetic agree). -/
def getSeasonalMultiplier (month : ℕ) : ℚ :=
  match (month - 1) % 12 + 1 with
  | 1 => 9/10
  | 2 => 95/100
  | 3 => 1
  | 4 => 1
  | 5 => 105/100
  | 6 => 11/10
  | 7 => 115/100
  | 8 => 11/10
  | 9 => 105/100
  | 10 => 1
  | 11 => 95/100
  | 12 => 9/10
  | _ => 1

/-- `FinancialInputs` as destructured by `generateDynamicMonthlyData`. -/
structure FinancialInputs where
  initial_investment : ℤ
  expected_monthly_revenue : ℤ
  monthly_operating_cost : ℤ
  timeframe : ℕ
  business_model : Option String

/-- One element pushed onto `monthlyData` (all monetary fields stored
`Math.round`ed). -/
structure MonthlyDataPoint where
  month : ℕ
  revenue : ℤ
  cost : ℤ
  profit : ℤ
  cumulativeProfit : ℤ
  revenueGrowth : ℤ
  capacityUtilization : ℤ
deriving DecidableEq, Repr, Inhabited

/-- The loop variable `currentRevenue` at the start of iteration `month`
(1-based): initialized to `expected_monthly_revenue * 0.6`, and for
`month > 1` updated to
`min(currentRevenue * (1 + growthRate), expected_monthly_revenue * maxCapacity)`
with `growthRate = monthlyGrowth * (1 + u month)`. -/
def currentRevenue (I : FinancialInputs) (u : ℕ → ℚ) : ℕ → ℚ
  | 0 => (I.expected_monthly_revenue : ℚ) * (6/10)
  | 1 => (I.expected_monthly_revenue : ℚ) * (6/10)
  | m + 2 =>
    let gf := getGrowthFactors I.business_model
    let growthRate := gf.monthlyGrowth * (1 + u (m + 2))
    min (currentRevenue I u (m + 1) * (1 + growthRate))
      ((I.expected_monthly_revenue : ℚ) * gf.maxCapacity)

/-- The loop variable `currentCost` in iteration `month`:
`monthly_operating_cost * (1 + v month)` (recomputed from the base cost every
month, `v month` being that month's `Math.random()*0.1-0.05` draw). -/
def currentCost (I : FinancialInputs) (v : ℕ → ℚ) (month : ℕ) : ℚ :=
  (I.monthly_operating_cost : ℚ) * (1 + v month)

/-- `adjustedRevenue = currentRevenue * getSeasonalMultiplier(month)`. -/
def adjustedRevenue (I : FinancialInputs) (u : ℕ → ℚ) (month : ℕ) : ℚ :=
  currentRevenue I u month * getSeasonalMultiplier month

/-- `profit = adjustedRevenue - currentCost` (before rounding). -/
def profitQ (I : FinancialInputs) (u v : ℕ → ℚ) (month : ℕ) : ℚ :=
  adjustedRevenue I u month - currentCost I v month

/-- The `revenue` field of the point pushed for `month`:
`Math.round(adjustedRevenue)`. -/
def storedRevenue (I : FinancialInputs) (u : ℕ → ℚ) (month : ℕ) : ℤ :=
  mathRound (adjustedRevenue I u month)

/-- The `cumulativeProfit` field of the point pushed for `month`:
`Math.round` of `monthlyData[last].cumulativeProfit + profit` when a previous
point exists, else of `profit - initial_investment`. -/
def cumulativeProfitStored (I : FinancialInputs) (u v : ℕ → ℚ) : ℕ → ℤ
  | 0 => 0
  | 1 => mathRound (profitQ I u v 1 - (I.initial_investment : ℚ))
  | m + 2 =>
    mathRound ((cumulativeProfitStored I u v (m + 1) : ℚ) + profitQ I u v (m + 2))

/-- `monthlyData[month - 2]?.revenue || adjustedRevenue`: the previous pushed
point's (rounded) `revenue` unless absent (month 1) or falsy (`0`), in which
case the current month's `adjustedRevenue`. -/
def prevRevenueOrAdjusted (I : FinancialInputs) (u : ℕ → ℚ) (month : ℕ) : ℚ :=
  match month with
  | 0 => adjustedRevenue I u 0
  | 1 => adjustedRevenue I u 1
  | m + 2 =>
    if storedRevenue I u (m + 1) = 0 then adjustedRevenue I u (m + 2)
    else (storedRevenue I u (m + 1) : ℚ)

/-- The point pushed onto `monthlyData` for `month`. -/
def mkMonthPoint (I : FinancialInputs) (u v : ℕ → ℚ) (month : ℕ) : MonthlyDataPoint :=
  let adjRev := adjustedRevenue I u month
  let prevRev := prevRevenueOrAdjusted I u month
  { month := month
    revenue := mathRound adjRev
    cost := mathRound (currentCost I v month)
    profit := mathRound (profitQ I u v month)
    cumulativeProfit := cumulativeProfitStored I u v month
    revenueGrowth := mathRound ((adjRev - prevRev) / prevRev * 100)
    capacityUtilization :=
      mathRound (adjRev / (I.expected_monthly_revenue : ℚ) * 100) }

/-- `generateDynamicMonthlyData`: the list of points pushed for
`month = 1 .. timeframe`. -/
def generateDynamicMonthlyData (I : FinancialInputs) (u v : ℕ → ℚ) :
    List MonthlyDataPoint :=
  (List.range I.timeframe).map (fun i => mkMonthPoint I u v (i + 1))

/-- `calculateDynamicPaybackPeriod(monthlyData, initialInvestment)`: first
index with `cumulativeProfit >= 0` gives `(i + 1) / 12`; otherwise
`monthlyData.length / 12`.  (The source accepts `initialInvestment` but never
reads it.) -/
def calculateDynamicPaybackPeriod (monthlyData : List MonthlyDataPoint)
    (initialInvestment : ℤ) : ℚ :=
  match monthlyData.findIdx? (fun p => decide (0 ≤ p.cumulativeProfit)) with
  | some i => ((i : ℚ) + 1) / 12
  | none => (monthlyData.length : ℚ) / 12

/-- One `datasets` entry of a chart (style-only fields — colors, tension,
fill, type — are omitted). -/
structure Dataset where
  label : String
  data : List ℚ
deriving DecidableEq, Repr, Inhabited

/-- A chart object `{ labels, datasets }`. -/
structure ChartSeries where
  labels : List String
  datasets : List Dataset
deriving DecidableEq, Repr, Inhabited

/-- `monthlyData.filter((_, index) => index % sampleRate === 0)`. -/
def sampleByIndex {α : Type} (l : List α) (sampleRate : ℕ) : List α :=
  (l.enum.filter (fun p => p.1 % sampleRate = 0)).map Prod.snd

/-- `generateRevenueCostChartData(monthlyData)`. -/
def generateRevenueCostChartData (monthlyData : List MonthlyDataPoint) :
    ChartSeries :=
  let sampleRate := mathCeilDiv monthlyData.length 24
  let sampledData := sampleByIndex monthlyData sampleRate
  { labels := sampledData.map (fun item => "Month " ++ toString item.month)
    datasets :=
      [ { label := "Revenue", data := sampledData.map (fun item => (item.revenue : ℚ)) }
      , { label := "Cost", data := sampledData.map (fun item => (item.cost : ℚ)) }
      , { label := "Profit", data := sampledData.map (fun item => (item.profit : ℚ)) } ] }

/-- `generateRoiGrowthChartData(monthlyData, finalROI, initialInvestment)`. -/
def generateRoiGrowthChartData (monthlyData : List MonthlyDataPoint)
    (finalROI : ℚ) (initialInvestment : ℤ) : ChartSeries :=
  let roiData := monthlyData.map (fun item =>
    (item.month,
      ((item.cumulativeProfit : ℚ) + (initialInvestment : ℚ)) / (initialInvestment : ℚ) * 100))
  let sampleRate := mathCeilDiv roiData.length 12
  let sampledROIData := sampleByIndex roiData sampleRate
  { labels := sampledROIData.map (fun item => "Month " ++ toString item.1)
    datasets :=
      [ { label := "ROI Progress", data := sampledROIData.map (fun item => min item.2 finalROI) }
      , { label := "Target ROI", data := sampledROIData.map (fun _ => finalROI) } ] }

/-- A JS number as far as `generatePerformanceMetrics` is concerned: a finite
(exact) value, `Infinity`, `-Infinity`, or `NaN`. -/
inductive JSNum where
  | fin : ℚ → JSNum
  | inf : JSNum
  | ninf : JSNum
  | nan : JSNum
deriving DecidableEq, Repr

namespace JSNum

/-- JS division on `JSNum` (signs of zero are not tracked: the denominators
appearing in the embedded code are products of integers). -/
def div : JSNum → JSNum → JSNum
  | fin a, fin b =>
    if b = 0 then (if a > 0 then inf else if a < 0 then ninf else nan)
    else fin (a / b)
  | fin _, inf => fin 0
  | fin _, ninf => fin 0
  | inf, fin b => if b < 0 then ninf else inf
  | ninf, fin b => if b < 0 then inf else ninf
  | inf, inf => nan
  | inf, ninf => nan
  | ninf, inf => nan
  | ninf, ninf => nan
  | _, nan => nan
  | nan, _ => nan

/-- JS multiplication on `JSNum`. -/
def mul : JSNum → JSNum → JSNum
  | fin a, fin b => fin (a * b)
  | fin a, inf => if a > 0 then inf else if a < 0 then ninf else nan
  | fin a, ninf => if a > 0 then ninf else if a < 0 then inf else nan
  | inf, fin b => if b > 0 then inf else if b < 0 then ninf else nan
  | ninf, fin b => if b > 0 then ninf else if b < 0 then inf else nan
  | inf, inf => inf
  | inf, ninf => ninf
  | ninf, inf => ninf
  | ninf, ninf => inf
  | _, nan => nan
  | nan, _ => nan

/-- JS falsiness of a number: `0` (and `-0`) and `NaN` are falsy. -/
def falsy : JSNum → Bool
  | fin a => a = 0
  | nan => true
  | _ => false

/-- JS `x || d` for numbers. -/
def orElse (x d : JSNum) : JSNum := if x.falsy then d else x

end JSNum

/-- The flat `financialDetails` row read by `generatePerformanceMetrics`. -/
structure FinancialDetailsRow where
  initial_investment : ℤ
  expected_monthly_revenue : ℤ
  monthly_operating_cost : ℤ
  timeframe : ℤ

/-- The stored `roiResult` (with its `financialDetails` relation) read by
`generatePerformanceMetrics`. -/
structure RoiResultRow where
  roi_percentage : ℚ
  net_profit : ℤ
  payback_period_years : ℚ
  financialDetails : FinancialDetailsRow

/-- `performanceMetrics.summary`. -/
structure MetricsSummary where
  roi : ℚ
  netProfit : ℤ
  paybackPeriod : ℚ
  totalMonths : ℤ
deriving DecidableEq, Repr

/-- `performanceMetrics.averages`. -/
structure MetricsAverages where
  monthlyRevenue : ℤ
  monthlyCost : ℤ
  monthlyProfit : ℤ
deriving DecidableEq, Repr

/-- `performanceMetrics.efficiency` (JS special values tracked: the
`|| 0` guard only replaces falsy results). -/
structure MetricsEfficiency where
  profitMargin : JSNum
  investmentEfficiency : JSNum
deriving DecidableEq, Repr

/-- `generatePerformanceMetrics` return value. -/
structure PerformanceMetrics where
  summary : MetricsSummary
  averages : MetricsAverages
  efficiency : MetricsEfficiency
deriving DecidableEq, Repr

/-- `generatePerformanceMetrics(roiResult)`. -/
def generatePerformanceMetrics (roiResult : RoiResultRow) : PerformanceMetrics :=
  let fd := roiResult.financialDetails
  { summary :=
      { roi := roiResult.roi_percentage
        netProfit := roiResult.net_profit
        paybackPeriod := roiResult.payback_period_years
        totalMonths := fd.timeframe }
    averages :=
      { monthlyRevenue := fd.expected_monthly_revenue
        monthlyCost := fd.monthly_operating_cost
        monthlyProfit := fd.expected_monthly_revenue - fd.monthly_operating_cost }
    efficiency :=
      { profitMargin :=
          JSNum.orElse
            (JSNum.mul
              (JSNum.div (JSNum.fin (roiResult.net_profit : ℚ))
                (JSNum.fin ((fd.expected_monthly_revenue : ℚ) * (fd.timeframe : ℚ))))
              (JSNum.fin 100))
            (JSNum.fin 0)
        investmentEfficiency :=
          JSNum.mul
            (JSNum.div (JSNum.fin (roiResult.net_profit : ℚ))
              (JSNum.fin (fd.initial_investment : ℚ)))
            (JSNum.fin 100) } }

/-- Concrete valid inputs used for witnesses and counterexamples:
`initial_investment = 1`, `expected_monthly_revenue = 99`,
`monthly_operating_cost = 1`, `timeframe = 2`, no business model. -/
def cexInputs : FinancialInputs := ⟨1, 99, 1, 2, none⟩

/-- The all-zero variance draw sequence (`Math.random()` returning `0.5`
every time, so that every `Math.random() * 0.1 - 0.05` is `0`). -/
def zeroDraws : ℕ → ℚ := fun _ => 0

/-- A concrete series whose `cumulativeProfit` is negative for months 1..4
and non-negative from month 5 on. -/
def paybackSeries : List MonthlyDataPoint :=
  [⟨1, 0, 0, 0, -5, 0, 0⟩, ⟨2, 0, 0, 0, -4, 0, 0⟩, ⟨3, 0, 0, 0, -3, 0, 0⟩,
    ⟨4, 0, 0, 0, -2, 0, 0⟩, ⟨5, 0, 0, 0, 1, 0, 0⟩]

/-- Concrete valid inputs with a 36-month timeframe. -/
def inputs36 : FinancialInputs := ⟨1, 1, 1, 36, none⟩

lemma sampleByIndex_cons {α : Type} (a : α) (l : List α) (s : ℕ) :
    sampleByIndex (a :: l) s =
      a :: ((l.enumFrom 1).filter (fun p => p.1 % s = 0)).map Prod.snd := by
  simp [sampleByIndex, List.enum, List.enumFrom, List.filter]

lemma enumFrom_filter_map_map {α β : Type} (f : α → β) (s : ℕ) :
    ∀ (l : List α) (k : ℕ),
      (((l.map f).enumFrom k).filter (fun p => p.1 % s = 0)).map Prod.snd =
        (((l.enumFrom k).filter (fun p => p.1 % s = 0)).map Prod.snd).map f := by
  intro l
  induction l with
  | nil => intro k; simp [List.enumFrom]
  | cons a t ih =>
    intro k
    by_cases hk : k % s = 0 <;>
      simp [List.enumFrom, List.filter_cons, hk, ih (k + 1)]

lemma sampleByIndex_map {α β : Type} (f : α → β) (l : List α) (s : ℕ) :
    sampleByIndex (l.map f) s = (sampleByIndex l s).map f := by
  simpa [sampleByIndex, List.enum] using enumFrom_filter_map_map f s l 0

lemma enumFrom_range'_filter (s : ℕ) :
    ∀ (n k : ℕ),
      (((List.range' k n).enumFrom k).filter (fun p => p.1 % s = 0)).map Prod.snd =
        (List.range' k n).filter (fun i => i % s = 0) := by
  intro n
  induction n with
  | zero => intro k; simp [List.enumFrom]
  | succ m ih =>
    intro k
    rw [List.range'_succ k m 1]
    by_cases hk : k % s = 0 <;>
      simp [List.enumFrom, List.filter_cons, hk, ih (k + 1)]

lemma sampleByIndex_range (n s : ℕ) :
    sampleByIndex (List.range n) s = (List.range n).filter (fun i => i % s = 0) := by
  rw [List.range_eq_range']
  simpa [sampleByIndex, List.enum] using enumFrom_range'_filter s n 0

lemma enumFrom_filter_length (s : ℕ) :
    ∀ {α : Type} (l : List α) (k : ℕ),
      (((l.enumFrom k).filter (fun p => p.1 % s = 0)).map Prod.snd).length =
        ((List.range' k l.length).filter (fun i => i % s = 0)).length := by
  intro α l
  induction l with
  | nil => intro k; simp [List.enumFrom]
  | cons a t ih =>
    intro k
    rw [List.length_cons, List.range'_succ k t.length 1]
    by_cases hk : k % s = 0 <;>
      simp [List.enumFrom, List.filter_cons, hk, ih (k + 1)]

lemma sampleByIndex_length {α : Type} (l : List α) (s : ℕ) :
    (sampleByIndex l s).length =
      ((List.range l.length).filter (fun i => i % s = 0)).length := by
  rw [List.range_eq_range']
  simpa [sampleByIndex, List.enum] using enumFrom_filter_length s l 0

lemma length_filter_mod_range (s : ℕ) (hs : 0 < s) :
    ∀ n : ℕ, ((List.range n).filter (fun i => i % s = 0)).length = (n + s - 1) / s := by
  intro n
  induction n with
  | zero => simp [Nat.div_eq_of_lt (by omega : s - 1 < s)]
  | succ m ih =>
    rw [List.range_succ, List.filter_append, List.length_append, ih]
    have hrw : m + 1 + s - 1 = (m + s - 1) + 1 := by omega
    rw [hrw, Nat.succ_div]
    have hdvd : s ∣ m + s - 1 + 1 ↔ s ∣ m := by
      have h1 : m + s - 1 + 1 = m + s := by omega
      rw [h1, Nat.dvd_add_self_right]
    by_cases hm : m % s = 0
    · have : s ∣ m := Nat.dvd_iff_mod_eq_zero.mpr hm
      simp [hm, hdvd.mpr this]
    · have h3 : ¬ s ∣ m := fun hd => hm (Nat.dvd_iff_mod_eq_zero.mp hd)
      have h4 : ¬ s ∣ m + s - 1 + 1 := fun hd => h3 (hdvd.mp hd)
      simp [hm, h4]

lemma le_mul_ceilDiv (n t : ℕ) (ht : 0 < t) (hn : 0 < n) : n ≤ t * mathCeilDiv n t := by
  have h1 := Nat.div_add_mod (n + t - 1) t
  have h2 : (n + t - 1) % t < t := Nat.mod_lt _ ht
  unfold mathCeilDiv
  generalize hP : t * ((n + t - 1) / t) = P at h1 ⊢
  omega

lemma ceilDiv_pos (n t : ℕ) (ht : 0 < t) (hn : 0 < n) : 0 < mathCeilDiv n t := by
  have h := (Nat.le_div_iff_mul_le ht).mpr (by omega : 1 * t ≤ n + t - 1)
  unfold mathCeilDiv
  omega

lemma sampled_count_le (n t : ℕ) (ht : 0 < t) :
    ((List.range n).filter (fun i => i % mathCeilDiv n t = 0)).length ≤ t := by
  rcases Nat.eq_zero_or_pos n with hn | hn
  · subst hn; simp
  · have hs : 0 < mathCeilDiv n t := ceilDiv_pos n t ht hn
    rw [length_filter_mod_range _ hs n]
    have key : n ≤ t * mathCeilDiv n t := le_mul_ceilDiv n t ht hn
    apply Nat.le_of_lt_succ
    rw [Nat.div_lt_iff_lt_mul hs]
    have hexp : (t + 1) * mathCeilDiv n t = t * mathCeilDiv n t + mathCeilDiv n t := by ring
    rw [hexp]
    generalize hP : t * mathCeilDiv n t = P at key ⊢
    omega

lemma mathRound_add_int (q : ℚ) (z : ℤ) : mathRound (q + z) = mathRound q + z := by
  unfold mathRound
  rw [add_right_comm, Int.floor_add_int]

lemma mathRound_int_add (z : ℤ) (q : ℚ) : mathRound ((z : ℚ) + q) = z + mathRound q := by
  rw [add_comm, mathRound_add_int, add_comm]

lemma mathRound_sub_int (q : ℚ) (z : ℤ) : mathRound (q - z) = mathRound q - z := by
  have h : q - (z : ℚ) = q + ((-z : ℤ) : ℚ) := by push_cast; ring
  rw [h, mathRound_add_int]
  omega

lemma generateDynamicMonthlyData_length (I : FinancialInputs) (u v : ℕ → ℚ) :
    (generateDynamicMonthlyData I u v).length = I.timeframe := by
  simp [generateDynamicMonthlyData]

lemma generateDynamicMonthlyData_get (I : FinancialInputs) (u v : ℕ → ℚ)
    (i : ℕ) (h : i < (generateDynamicMonthlyData I u v).length) :
    (generateDynamicMonthlyData I u v).get ⟨i, h⟩ = mkMonthPoint I u v (i + 1) := by
  simp [generateDynamicMonthlyData, List.get_eq_getElem]

lemma growthFactors_bounds (b : Option String) :
    1/20 ≤ (getGrowthFactors b).monthlyGrowth ∧
      (getGrowthFactors b).monthlyGrowth ≤ 12/100 ∧
      11/10 ≤ (getGrowthFactors b).maxCapacity ∧
      (getGrowthFactors b).maxCapacity ≤ 15/10 := by
  unfold getGrowthFactors
  rcases b with _ | s
  · norm_num
  · split <;> norm_num

lemma growthFactors_default (s : String)
    (h : s ∉ (["B2B Manufacturing", "Penjualan Langsung (B2C)", "Layanan Berlangganan",
      "Waralaba (Franchise)", "Produksi (B2B)"] : List String)) :
    getGrowthFactors (some s) = ⟨8/100, 12/10⟩ := by
  simp only [List.mem_cons, List.not_mem_nil, or_false] at h
  push_neg at h
  obtain ⟨h1, h2, h3, h4, h5⟩ := h
  unfold getGrowthFactors
  split
  all_goals first
    | rfl
    | (rename_i heq; exact absurd (Option.some_injective _ heq.symm).symm (by assumption))

lemma findIdx_cumulative_some :
    ∀ (l : List MonthlyDataPoint) (k i : ℕ) (h : i < l.length),
      (∀ j (hj : j < i), (l.get ⟨j, Nat.lt_trans hj h⟩).cumulativeProfit < 0) →
      0 ≤ (l.get ⟨i, h⟩).cumulativeProfit →
      l.findIdx? (fun p => decide (0 ≤ p.cumulativeProfit)) k = some (k + i) := by
  intro l
  induction l with
  | nil => intro k i h; exact absurd h (by simp)
  | cons a t ih =>
    intro k i h hneg hpos
    cases i with
    | zero =>
      rw [List.findIdx?_cons, if_pos (by simpa using hpos)]
      simp
    | succ j =>
      have ha : a.cumulativeProfit < 0 := by
        have := hneg 0 (Nat.succ_pos j)
        simpa using this
      rw [List.findIdx?_cons, if_neg (by simp [ha.not_le])]
      have hrec := ih (k + 1) j (by simpa using h)
        (fun j' hj' => by
          have := hneg (j' + 1) (by omega)
          simpa using this)
        (by simpa using hpos)
      rw [hrec]
      congr 1
      omega

lemma findIdx_cumulative_none :
    ∀ (l : List MonthlyDataPoint) (k : ℕ),
      (∀ i (h : i < l.length), (l.get ⟨i, h⟩).cumulativeProfit < 0) →
      l.findIdx? (fun p => decide (0 ≤ p.cumulativeProfit)) k = none := by
  intro l
  induction l with
  | nil => intro k _; rfl
  | cons a t ih =>
    intro k hneg
    have ha : a.cumulativeProfit < 0 := by
      have := hneg 0 (by simp)
      simpa using this
    rw [List.findIdx?_cons, if_neg (by simp [ha.not_le])]
    exact ih (k + 1) (fun i h => by
      have := hneg (i + 1) (by simpa using h)
      simpa using this)

/-- Claim C1, counterexample: the claim says the label
`Direct-to-consumer sales` maps to `{monthlyGrowth: 0.12, maxCapacity: 1.50}`,
but `getGrowthFactors` has no such key (the code's keys are the Indonesian
labels), so that label falls through to the default row `{0.08, 1.20}`. -/
theorem C1_counterexample :
    getGrowthFactors (some "Direct-to-consumer sales") ≠
      ⟨12/100, 15/10⟩ := by
  have h : getGrowthFactors (some "Direct-to-consumer sales") = ⟨8/100, 12/10⟩ := rfl
  rw [h]
  intro hc
  have hmg := congrArg GrowthFactors.monthlyGrowth hc
  norm_num at hmg

/-- Claim C1 (amended): `getGrowthFactors` returns the exact table row for
each of the five labels actually present in the code's table —
`B2B Manufacturing` ↦ {0.08, 1.20}, `Penjualan Langsung (B2C)` ↦ {0.12, 1.50},
`Layanan Berlangganan` ↦ {0.05, 1.10}, `Waralaba (Franchise)` ↦ {0.06, 1.30},
`Produksi (B2B)` ↦ {0.07, 1.15} — and the default row {0.08, 1.20} for `null`
and for every string other than those five, without raising an error. -/
theorem C1_growth_factor_table :
    getGrowthFactors (some "B2B Manufacturing") = ⟨8/100, 12/10⟩ ∧
    getGrowthFactors (some "Penjualan Langsung (B2C)") = ⟨12/100, 15/10⟩ ∧
    getGrowthFactors (some "Layanan Berlangganan") = ⟨5/100, 11/10⟩ ∧
    getGrowthFactors (some "Waralaba (Franchise)") = ⟨6/100, 13/10⟩ ∧
    getGrowthFactors (some "Produksi (B2B)") = ⟨7/100, 115/100⟩ ∧
    getGrowthFactors none = ⟨8/100, 12/10⟩ ∧
    ∀ s : String,
      s ∉ (["B2B Manufacturing", "Penjualan Langsung (B2C)", "Layanan Berlangganan",
        "Waralaba (Franchise)", "Produksi (B2B)"] : List String) →
      getGrowthFactors (some s) = ⟨8/100, 12/10⟩ :=
  ⟨rfl, rfl, rfl, rfl, rfl, rfl, growthFactors_default⟩

/-- Claim C1 witness: the unrecognized label `Direct-to-consumer sales`
resolves to the default growth factors. -/
theorem C1_growth_factor_table_witness :
    getGrowthFactors (some "Direct-to-consumer sales") = ⟨8/100, 12/10⟩ :=
  C1_growth_factor_table.2.2.2.2.2.2 "Direct-to-consumer sales" (by simp)

/-- Claim C2, counterexample: with `expected_monthly_revenue = 0` (so the
denominator `expected_monthly_revenue × timeframe` is `0`) and
`net_profit = 5`, `efficiency.profitMargin` is `Infinity` — the JS `|| 0`
guard does not replace it because `Infinity` is truthy — contradicting the
claim that it equals `0` for every value of `net_profit`. -/
theorem C2_counterexample :
    (generatePerformanceMetrics
      { roi_percentage := 0
        net_profit := 5
        payback_period_years := 0
        financialDetails :=
          { initial_investment := 1
            expected_monthly_revenue := 0
            monthly_operating_cost := 1
            timeframe := 12 } }).efficiency.profitMargin ≠ JSNum.fin 0 := by
  have h : (generatePerformanceMetrics
      { roi_percentage := 0
        net_profit := 5
        payback_period_years := 0
        financialDetails :=
          { initial_investment := 1
            expected_monthly_revenue := 0
            monthly_operating_cost := 1
            timeframe := 12 } }).efficiency.profitMargin = JSNum.inf := by
    simp [generatePerformanceMetrics, JSNum.orElse, JSNum.mul, JSNum.div, JSNum.falsy]
  rw [h]
  decide

/-- Claim C2 (amended): when the denominator
`expected_monthly_revenue × timeframe` is zero, `efficiency.profitMargin`
is `0` exactly when `net_profit = 0` (the `0/0 = NaN` case, which the `|| 0`
guard replaces); for positive `net_profit` it is `Infinity` and for negative
`net_profit` it is `-Infinity` (both truthy, passing through `|| 0`).  No
error is raised in any case. -/
theorem C2_profit_margin_zero_denominator (r : RoiResultRow)
    (h : r.financialDetails.expected_monthly_revenue * r.financialDetails.timeframe = 0) :
    (generatePerformanceMetrics r).efficiency.profitMargin =
      (if 0 < r.net_profit then JSNum.inf
        else if r.net_profit < 0 then JSNum.ninf
        else JSNum.fin 0) := by
  have hden : ((r.financialDetails.expected_monthly_revenue : ℚ) *
      (r.financialDetails.timeframe : ℚ)) = 0 := by
    have := congrArg (fun z : ℤ => (z : ℚ)) h
    push_cast at this
    simpa using this
  simp only [generatePerformanceMetrics, hden]
  rcases lt_trichotomy r.net_profit 0 with hn | hn | hn
  · have h2 : ((r.net_profit : ℚ) < 0) := by exact_mod_cast hn
    have h1 : ¬ ((r.net_profit : ℚ) > 0) := by push_neg; exact h2.le
    have h3 : ¬ (0 < r.net_profit) := by omega
    simp [JSNum.div, JSNum.mul, JSNum.orElse, JSNum.falsy, h1, h2, hn, h3]
  · simp [JSNum.div, JSNum.mul, JSNum.orElse, JSNum.falsy, hn]
  · have h1 : ((r.net_profit : ℚ) > 0) := by exact_mod_cast hn
    have h3 : ¬ (r.net_profit < 0) := by omega
    simp [JSNum.div, JSNum.mul, JSNum.orElse, JSNum.falsy, h1, hn, h3]

/-- Claim C2 witness: a concrete row with `timeframe = 0` and
`net_profit = -7` yields `profitMargin = -Infinity`. -/
theorem C2_profit_margin_zero_denominator_witness :
    (generatePerformanceMetrics
      { roi_percentage := 0
        net_profit := (-7)
        payback_period_years := 0
        financialDetails :=
          { initial_investment := 1
            expected_monthly_revenue := 3
            monthly_operating_cost := 1
            timeframe := 0 } }).efficiency.profitMargin = JSNum.ninf := by
  have h := C2_profit_margin_zero_denominator
    { roi_percentage := 0
      net_profit := (-7)
      payback_period_years := 0
      financialDetails :=
        { initial_investment := 1
          expected_monthly_revenue := 3
          monthly_operating_cost := 1
          timeframe := 0 } } (by norm_num)
  simpa using h


lemma mkMonthPoint_month (I : FinancialInputs) (u v : ℕ → ℚ) (m : ℕ) :
    (mkMonthPoint I u v m).month = m := rfl

lemma mkMonthPoint_profit (I : FinancialInputs) (u v : ℕ → ℚ) (m : ℕ) :
    (mkMonthPoint I u v m).profit = mathRound (profitQ I u v m) := rfl

lemma mkMonthPoint_cumulativeProfit (I : FinancialInputs) (u v : ℕ → ℚ) (m : ℕ) :
    (mkMonthPoint I u v m).cumulativeProfit = cumulativeProfitStored I u v m := rfl

lemma mkMonthPoint_revenue (I : FinancialInputs) (u v : ℕ → ℚ) (m : ℕ) :
    (mkMonthPoint I u v m).revenue = storedRevenue I u m := rfl

lemma mkMonthPoint_revenueGrowth (I : FinancialInputs) (u v : ℕ → ℚ) (m : ℕ) :
    (mkMonthPoint I u v m).revenueGrowth =
      mathRound ((adjustedRevenue I u m - prevRevenueOrAdjusted I u m) /
        prevRevenueOrAdjusted I u m * 100) := rfl

/-- Claim C3 (confirmed): for every `FinancialInputs` and every sequence of
variance draws, the stored (per-field rounded) monthly data satisfies the
recurrence exactly: `cumulativeProfit` at month 1 equals `profit` at month 1
minus `initialInvestment`, and for every later month equals the previous
month's stored `cumulativeProfit` plus the month's stored `profit` — no
rounding drift beyond the per-field rounding, because rounding commutes with
adding the already-integral previous value. -/
theorem C3_cumulative_profit_recurrence (I : FinancialInputs) (u v : ℕ → ℚ) :
    (∀ h : 0 < (generateDynamicMonthlyData I u v).length,
      ((generateDynamicMonthlyData I u v).get ⟨0, h⟩).cumulativeProfit =
        ((generateDynamicMonthlyData I u v).get ⟨0, h⟩).profit - I.initial_investment) ∧
    (∀ i (h : i + 1 < (generateDynamicMonthlyData I u v).length),
      ((generateDynamicMonthlyData I u v).get ⟨i + 1, h⟩).cumulativeProfit =
        ((generateDynamicMonthlyData I u v).get ⟨i, Nat.lt_of_succ_lt h⟩).cumulativeProfit +
          ((generateDynamicMonthlyData I u v).get ⟨i + 1, h⟩).profit) := by
  constructor
  · intro h
    rw [generateDynamicMonthlyData_get, mkMonthPoint_cumulativeProfit, mkMonthPoint_profit]
    show cumulativeProfitStored I u v 1 = mathRound (profitQ I u v 1) - I.initial_investment
    have h1 : cumulativeProfitStored I u v 1 =
        mathRound (profitQ I u v 1 - (I.initial_investment : ℚ)) := rfl
    rw [h1, mathRound_sub_int]
  · intro i h
    rw [generateDynamicMonthlyData_get, generateDynamicMonthlyData_get,
      mkMonthPoint_cumulativeProfit, mkMonthPoint_cumulativeProfit, mkMonthPoint_profit]
    have h1 : cumulativeProfitStored I u v (i + 1 + 1) =
        mathRound ((cumulativeProfitStored I u v (i + 1) : ℚ) + profitQ I u v (i + 1 + 1)) := rfl
    rw [h1, mathRound_int_add]

/-- Claim C3 witness: the month-1 identity at the concrete inputs
`cexInputs` with zero variance draws. -/
theorem C3_cumulative_profit_recurrence_witness :
    ((generateDynamicMonthlyData cexInputs zeroDraws zeroDraws).get
        ⟨0, by simp [generateDynamicMonthlyData_length, cexInputs]⟩).cumulativeProfit =
      ((generateDynamicMonthlyData cexInputs zeroDraws zeroDraws).get
        ⟨0, by simp [generateDynamicMonthlyData_length, cexInputs]⟩).profit -
        cexInputs.initial_investment :=
  (C3_cumulative_profit_recurrence cexInputs zeroDraws zeroDraws).1 _

/-- Claim C4, counterexample: at inputs `cexInputs`
(`expected_monthly_revenue = 99`, `timeframe = 2`) with zero variance draws
(within `[-0.05, 0.05]`), the stored month-2 `revenueGrowth` is `15`
(computed against the previous month's stored, rounded revenue `53`), while
the claim's formula using the unrounded previous `adjustedRevenue` `53.46`
gives `14`. -/
theorem C4_counterexample :
    ((generateDynamicMonthlyData cexInputs zeroDraws zeroDraws).getD 1 default).revenueGrowth ≠
      mathRound ((adjustedRevenue cexInputs zeroDraws 2 - adjustedRevenue cexInputs zeroDraws 1) /
        adjustedRevenue cexInputs zeroDraws 1 * 100) := by
  have h1 : ((generateDynamicMonthlyData cexInputs zeroDraws zeroDraws).getD 1 default).revenueGrowth = 15 := by
    norm_num [generateDynamicMonthlyData, List.range_succ, mkMonthPoint, prevRevenueOrAdjusted,
      storedRevenue, mathRound, adjustedRevenue, currentRevenue, currentCost, profitQ,
      cumulativeProfitStored, getSeasonalMultiplier, getGrowthFactors, cexInputs, zeroDraws]
  have h2 : mathRound ((adjustedRevenue cexInputs zeroDraws 2 - adjustedRevenue cexInputs zeroDraws 1) /
      adjustedRevenue cexInputs zeroDraws 1 * 100) = 14 := by
    norm_num [mathRound, adjustedRevenue, currentRevenue, getSeasonalMultiplier,
      getGrowthFactors, cexInputs, zeroDraws]
  rw [h1, h2]
  decide

/-- Claim C4 (amended): for valid inputs, the stored revenue-growth
percentage at month 1 equals 0, and at every month `m > 1` it equals
`round(((adjustedRevenue_m - prev) / prev) × 100)` where `prev` is the
previous month's stored (rounded) `revenue` field — falling back to the
current month's `adjustedRevenue` when that stored value is `0` — not the
previous month's unrounded `adjustedRevenue`. -/
theorem C4_revenue_growth_formula (I : FinancialInputs) (u v : ℕ → ℚ)
    (hE : 0 < I.expected_monthly_revenue) :
    (∀ h : 0 < (generateDynamicMonthlyData I u v).length,
      ((generateDynamicMonthlyData I u v).get ⟨0, h⟩).revenueGrowth = 0) ∧
    (∀ i (h : i + 1 < (generateDynamicMonthlyData I u v).length),
      ((generateDynamicMonthlyData I u v).get ⟨i + 1, h⟩).revenueGrowth =
        mathRound ((adjustedRevenue I u (i + 2) -
            (if ((generateDynamicMonthlyData I u v).get ⟨i, Nat.lt_of_succ_lt h⟩).revenue = 0
              then adjustedRevenue I u (i + 2)
              else (((generateDynamicMonthlyData I u v).get ⟨i, Nat.lt_of_succ_lt h⟩).revenue : ℚ))) /
          (if ((generateDynamicMonthlyData I u v).get ⟨i, Nat.lt_of_succ_lt h⟩).revenue = 0
            then adjustedRevenue I u (i + 2)
            else (((generateDynamicMonthlyData I u v).get ⟨i, Nat.lt_of_succ_lt h⟩).revenue : ℚ)) *
          100)) := by
  constructor
  · intro h
    rw [generateDynamicMonthlyData_get, mkMonthPoint_revenueGrowth]
    have h1 : prevRevenueOrAdjusted I u 1 = adjustedRevenue I u 1 := rfl
    rw [h1, sub_self, zero_div, zero_mul]
    norm_num [mathRound]
  · intro i h
    rw [generateDynamicMonthlyData_get, generateDynamicMonthlyData_get,
      mkMonthPoint_revenueGrowth, mkMonthPoint_revenue]
    have h1 : prevRevenueOrAdjusted I u (i + 2) =
        if storedRevenue I u (i + 1) = 0 then adjustedRevenue I u (i + 2)
        else (storedRevenue I u (i + 1) : ℚ) := rfl
    rw [h1]

/-- Claim C4 witness: month-1 growth is 0 at the concrete inputs
`cexInputs` with zero variance draws. -/
theorem C4_revenue_growth_formula_witness :
    ((generateDynamicMonthlyData cexInputs zeroDraws zeroDraws).get
        ⟨0, by simp [generateDynamicMonthlyData_length, cexInputs]⟩).revenueGrowth = 0 :=
  (C4_revenue_growth_formula cexInputs zeroDraws zeroDraws (by decide)).1 _

/-- Claim C5 (confirmed): for every non-empty series, the payback estimator
returns `(i + 1) / 12` years where `i` is the smallest 0-based index with
`cumulativeProfit ≥ 0` scanning in month order, and `(series length) / 12`
when no element has non-negative `cumulativeProfit` — never an error or
infinity. -/
theorem C5_payback_period (md : List MonthlyDataPoint) (init : ℤ) (hne : md ≠ []) :
    (∀ i (h : i < md.length),
      (∀ j (hj : j < i), (md.get ⟨j, Nat.lt_trans hj h⟩).cumulativeProfit < 0) →
      0 ≤ (md.get ⟨i, h⟩).cumulativeProfit →
      calculateDynamicPaybackPeriod md init = ((i : ℚ) + 1) / 12) ∧
    ((∀ i (h : i < md.length), (md.get ⟨i, h⟩).cumulativeProfit < 0) →
      calculateDynamicPaybackPeriod md init = (md.length : ℚ) / 12) := by
  constructor
  · intro i h hneg hpos
    unfold calculateDynamicPaybackPeriod
    rw [findIdx_cumulative_some md 0 i h hneg hpos]
    norm_num
  · intro hneg
    unfold calculateDynamicPaybackPeriod
    rw [findIdx_cumulative_none md 0 hneg]


/-- Claim C5 witness: a series with `cumulativeProfit` negative for months
1..4 and non-negative from month 5 yields `(4 + 1) / 12 = 5/12` years. -/
theorem C5_payback_period_witness :
    calculateDynamicPaybackPeriod paybackSeries 100 = ((4 : ℚ) + 1) / 12 :=
  (C5_payback_period paybackSeries 100 (by decide)).1 4 (by decide)
    (fun j hj => by
      interval_cases j
      · exact (by decide : ((-5 : ℤ) < 0))
      · exact (by decide : ((-4 : ℤ) < 0))
      · exact (by decide : ((-3 : ℤ) < 0))
      · exact (by decide : ((-2 : ℤ) < 0)))
    (by decide)

lemma revenueCost_labels (md : List MonthlyDataPoint) :
    (generateRevenueCostChartData md).labels =
      (sampleByIndex md (mathCeilDiv md.length 24)).map
        (fun item => "Month " ++ toString item.month) := rfl

lemma roiGrowth_labels (md : List MonthlyDataPoint) (f : ℚ) (z : ℤ) :
    (generateRoiGrowthChartData md f z).labels =
      (sampleByIndex
        (md.map (fun item =>
          (item.month, ((item.cumulativeProfit : ℚ) + (z : ℚ)) / (z : ℚ) * 100)))
        (mathCeilDiv
          (md.map (fun item =>
            (item.month, ((item.cumulativeProfit : ℚ) + (z : ℚ)) / (z : ℚ) * 100))).length
          12)).map
        (fun item => "Month " ++ toString item.1) := rfl

lemma revenueCost_labels_generate (I : FinancialInputs) (u v : ℕ → ℚ) :
    (generateRevenueCostChartData (generateDynamicMonthlyData I u v)).labels =
      ((List.range I.timeframe).filter (fun i => i % mathCeilDiv I.timeframe 24 = 0)).map
        (fun i => "Month " ++ toString (i + 1)) := by
  rw [revenueCost_labels]
  unfold generateDynamicMonthlyData
  rw [List.length_map, List.length_range, sampleByIndex_map, sampleByIndex_range,
    List.map_map]
  rfl

lemma roiGrowth_labels_generate (I : FinancialInputs) (u v : ℕ → ℚ) (f : ℚ) (z : ℤ) :
    (generateRoiGrowthChartData (generateDynamicMonthlyData I u v) f z).labels =
      ((List.range I.timeframe).filter (fun i => i % mathCeilDiv I.timeframe 12 = 0)).map
        (fun i => "Month " ++ toString (i + 1)) := by
  rw [roiGrowth_labels]
  unfold generateDynamicMonthlyData
  rw [List.map_map, List.length_map, List.length_range, sampleByIndex_map, sampleByIndex_range,
    List.map_map]
  rfl

lemma revenueCost_labels_length_le (md : List MonthlyDataPoint) :
    (generateRevenueCostChartData md).labels.length ≤ 24 := by
  unfold generateRevenueCostChartData
  rw [List.length_map, sampleByIndex_length]
  exact sampled_count_le md.length 24 (by norm_num)

lemma roiGrowth_labels_length_le (md : List MonthlyDataPoint) (f : ℚ) (z : ℤ) :
    (generateRoiGrowthChartData md f z).labels.length ≤ 12 := by
  unfold generateRoiGrowthChartData
  rw [List.length_map, sampleByIndex_length, List.length_map]
  exact sampled_count_le md.length 12 (by norm_num)


/-- Claim C6 (confirmed): both chart builders down-sample with
`sampleRate = ceil(n / targetPoints)` (`targetPoints` = 24 for revenue/cost,
12 for ROI growth), keeping exactly the points at 0-based indices divisible
by `sampleRate` (stated here as: the label list of each chart built over a
generated series is the months `i + 1` for exactly those indices `i`); the
number of kept points is bounded by `targetPoints` for every series; and for
a 36-month series the revenue/cost chart keeps exactly 18 points at months
1, 3, 5, …, 35. -/
theorem C6_chart_downsampling :
    (∀ (I : FinancialInputs) (u v : ℕ → ℚ) (f : ℚ) (z : ℤ),
      (generateRevenueCostChartData (generateDynamicMonthlyData I u v)).labels =
        ((List.range I.timeframe).filter (fun i => i % mathCeilDiv I.timeframe 24 = 0)).map
          (fun i => "Month " ++ toString (i + 1)) ∧
      (generateRoiGrowthChartData (generateDynamicMonthlyData I u v) f z).labels =
        ((List.range I.timeframe).filter (fun i => i % mathCeilDiv I.timeframe 12 = 0)).map
          (fun i => "Month " ++ toString (i + 1))) ∧
    (∀ (md : List MonthlyDataPoint) (f : ℚ) (z : ℤ),
      (generateRevenueCostChartData md).labels.length ≤ 24 ∧
      (generateRoiGrowthChartData md f z).labels.length ≤ 12) ∧
    ((generateRevenueCostChartData
        (generateDynamicMonthlyData inputs36 zeroDraws zeroDraws)).labels =
      ["Month 1", "Month 3", "Month 5", "Month 7", "Month 9", "Month 11", "Month 13",
        "Month 15", "Month 17", "Month 19", "Month 21", "Month 23", "Month 25", "Month 27",
        "Month 29", "Month 31", "Month 33", "Month 35"]) := by
  refine ⟨fun I u v f z => ⟨revenueCost_labels_generate I u v,
    roiGrowth_labels_generate I u v f z⟩,
    fun md f z => ⟨revenueCost_labels_length_le md, roiGrowth_labels_length_le md f z⟩, ?_⟩
  rw [revenueCost_labels_generate]
  decide

/-- Claim C7 (confirmed): for every series, every `finalROI` and every
nonzero `initialInvestment`, every value of the ROI-growth chart's
`ROI Progress` dataset (the per-month ROI after clamping by `min`) is at
most `finalROI`, and the `Target ROI` reference dataset equals `finalROI` at
every sampled month. -/
theorem C7_roi_clamp (md : List MonthlyDataPoint) (f : ℚ) (z : ℤ) (hz : z ≠ 0) :
    ((generateRoiGrowthChartData md f z).datasets.getD 0 default).label = "ROI Progress" ∧
    (∀ x ∈ ((generateRoiGrowthChartData md f z).datasets.getD 0 default).data, x ≤ f) ∧
    ((generateRoiGrowthChartData md f z).datasets.getD 1 default).label = "Target ROI" ∧
    (∀ x ∈ ((generateRoiGrowthChartData md f z).datasets.getD 1 default).data, x = f) := by
  refine ⟨rfl, ?_, rfl, ?_⟩
  · have hd : ((generateRoiGrowthChartData md f z).datasets.getD 0 default).data =
        (sampleByIndex
          (md.map (fun item =>
            (item.month, ((item.cumulativeProfit : ℚ) + (z : ℚ)) / (z : ℚ) * 100)))
          (mathCeilDiv
            (md.map (fun item =>
              (item.month, ((item.cumulativeProfit : ℚ) + (z : ℚ)) / (z : ℚ) * 100))).length
            12)).map (fun item => min item.2 f) := rfl
    rw [hd]
    intro x hx
    obtain ⟨item, _, rfl⟩ := List.mem_map.mp hx
    exact min_le_right _ _
  · have hd : ((generateRoiGrowthChartData md f z).datasets.getD 1 default).data =
        (sampleByIndex
          (md.map (fun item =>
            (item.month, ((item.cumulativeProfit : ℚ) + (z : ℚ)) / (z : ℚ) * 100)))
          (mathCeilDiv
            (md.map (fun item =>
              (item.month, ((item.cumulativeProfit : ℚ) + (z : ℚ)) / (z : ℚ) * 100))).length
            12)).map (fun _ => f) := rfl
    rw [hd]
    intro x hx
    obtain ⟨item, _, rfl⟩ := List.mem_map.mp hx
    rfl

/-- Claim C7 witness: instantiation at the empty series, `finalROI = 0`,
`initialInvestment = 1`. -/
theorem C7_roi_clamp_witness :
    ((generateRoiGrowthChartData [] 0 1).datasets.getD 0 default).label = "ROI Progress" :=
  (C7_roi_clamp [] 0 1 (by decide)).1

/-- Claim C8 (confirmed): for every valid `FinancialInputs` (all four
numeric fields positive) and every sequence of variance draws, the generator
returns exactly `timeframe` data points whose `month` fields are
`1, 2, …, timeframe` in strictly increasing order starting at 1 (the point
at 0-based index `i` has `month = i + 1`). -/
theorem C8_month_sequence (I : FinancialInputs) (u v : ℕ → ℚ)
    (h1 : 0 < I.initial_investment) (h2 : 0 < I.expected_monthly_revenue)
    (h3 : 0 < I.monthly_operating_cost) (h4 : 0 < I.timeframe) :
    (generateDynamicMonthlyData I u v).length = I.timeframe ∧
    ∀ i (h : i < (generateDynamicMonthlyData I u v).length),
      ((generateDynamicMonthlyData I u v).get ⟨i, h⟩).month = i + 1 := by
  refine ⟨generateDynamicMonthlyData_length I u v, fun i h => ?_⟩
  rw [generateDynamicMonthlyData_get, mkMonthPoint_month]

/-- Claim C8 witness: the generator at `cexInputs` (timeframe 2) with zero
draws returns exactly 2 points. -/
theorem C8_month_sequence_witness :
    (generateDynamicMonthlyData cexInputs zeroDraws zeroDraws).length = 2 :=
  (C8_month_sequence cexInputs zeroDraws zeroDraws (by decide) (by decide)
    (by decide) (by decide)).1

/-- Claim C9 (confirmed): for every valid `FinancialInputs` and every
sequence of growth-variance draws in `[-0.05, 0.05]`, the pre-seasonality
revenue state `currentRevenue` is non-decreasing month to month: every
growth-factor row has positive `monthlyGrowth`, the effective growth rate
`monthlyGrowth × (1 + U)` is positive, the capacity cap
`expectedMonthlyRevenue × maxCapacity` is at least the starting value
`expectedMonthlyRevenue × 0.6`, and `min(currentRevenue × (1 + growthRate),
cap)` never decreases `currentRevenue`. -/
theorem C9_revenue_monotone (I : FinancialInputs) (u : ℕ → ℚ)
    (hE : 0 < I.expected_monthly_revenue)
    (hu : ∀ m, -(1/20) ≤ u m ∧ u m ≤ 1/20) :
    (∀ b, 0 < (getGrowthFactors b).monthlyGrowth) ∧
    (∀ m, 0 < (getGrowthFactors I.business_model).monthlyGrowth * (1 + u m)) ∧
    ((I.expected_monthly_revenue : ℚ) * (6/10) ≤
      (I.expected_monthly_revenue : ℚ) * (getGrowthFactors I.business_model).maxCapacity) ∧
    (∀ m, currentRevenue I u m ≤ currentRevenue I u (m + 1)) := by
  have hEq : (0 : ℚ) < (I.expected_monthly_revenue : ℚ) := by exact_mod_cast hE
  have hmgpos : ∀ b, 0 < (getGrowthFactors b).monthlyGrowth := fun b =>
    lt_of_lt_of_le (by norm_num) (growthFactors_bounds b).1
  have hone : ∀ m, 0 < 1 + u m := fun m => by
    have := (hu m).1
    linarith
  have hgrow : ∀ m, 0 < (getGrowthFactors I.business_model).monthlyGrowth * (1 + u m) :=
    fun m => mul_pos (hmgpos I.business_model) (hone m)
  have hcap : (6/10 : ℚ) ≤ (getGrowthFactors I.business_model).maxCapacity :=
    le_trans (by norm_num) (growthFactors_bounds I.business_model).2.2.1
  have hcapmul : (I.expected_monthly_revenue : ℚ) * (6/10) ≤
      (I.expected_monthly_revenue : ℚ) * (getGrowthFactors I.business_model).maxCapacity :=
    mul_le_mul_of_nonneg_left hcap hEq.le
  have hinv : ∀ m, 0 ≤ currentRevenue I u m ∧
      currentRevenue I u m ≤
        (I.expected_monthly_revenue : ℚ) * (getGrowthFactors I.business_model).maxCapacity := by
    intro m
    induction m with
    | zero =>
      constructor
      · show 0 ≤ (I.expected_monthly_revenue : ℚ) * (6/10)
        positivity
      · exact hcapmul
    | succ k ih =>
      rcases k with _ | j
      · constructor
        · show 0 ≤ (I.expected_monthly_revenue : ℚ) * (6/10)
          positivity
        · exact hcapmul
      · have hcur : currentRevenue I u (j + 2) =
            min (currentRevenue I u (j + 1) *
                (1 + (getGrowthFactors I.business_model).monthlyGrowth * (1 + u (j + 2))))
              ((I.expected_monthly_revenue : ℚ) *
                (getGrowthFactors I.business_model).maxCapacity) := rfl
        rw [hcur]
        constructor
        · apply le_min
          · exact mul_nonneg ih.1 (by have := hgrow (j + 2); linarith)
          · positivity
        · exact min_le_right _ _
  refine ⟨hmgpos, hgrow, hcapmul, fun m => ?_⟩
  rcases m with _ | j
  · exact le_of_eq rfl
  · have hcur : currentRevenue I u (j + 2) =
        min (currentRevenue I u (j + 1) *
            (1 + (getGrowthFactors I.business_model).monthlyGrowth * (1 + u (j + 2))))
          ((I.expected_monthly_revenue : ℚ) *
            (getGrowthFactors I.business_model).maxCapacity) := rfl
    rw [hcur]
    apply le_min
    · exact le_mul_of_one_le_right (hinv (j + 1)).1 (by have := hgrow (j + 2); linarith)
    · exact (hinv (j + 1)).2

/-- Claim C9 witness: at `cexInputs` with zero draws, `currentRevenue` does
not decrease from month 1 to month 2. -/
theorem C9_revenue_monotone_witness :
    currentRevenue cexInputs zeroDraws 1 ≤ currentRevenue cexInputs zeroDraws 2 :=
  (C9_revenue_monotone cexInputs zeroDraws (by decide)
    (fun m => by constructor <;> norm_num [zeroDraws])).2.2.2 1

/-- Claim C10 (confirmed): for every non-empty series (written `p :: rest`),
both chart builders keep the first point (0-based index 0, i.e. the first
month) — index 0 is divisible by every `sampleRate` — so the produced label
lists start with the first point's month and are non-empty. -/
theorem C10_first_month_kept (p : MonthlyDataPoint) (rest : List MonthlyDataPoint)
    (f : ℚ) (z : ℤ) :
    (generateRevenueCostChartData (p :: rest)).labels.head? =
      some ("Month " ++ toString p.month) ∧
    (generateRoiGrowthChartData (p :: rest) f z).labels.head? =
      some ("Month " ++ toString p.month) ∧
    (generateRevenueCostChartData (p :: rest)).labels ≠ [] ∧
    (generateRoiGrowthChartData (p :: rest) f z).labels ≠ [] := by
  have h1 := revenueCost_labels (p :: rest)
  have h2 := roiGrowth_labels (p :: rest) f z
  rw [List.map_cons] at h2
  rw [sampleByIndex_cons] at h1 h2
  rw [List.map_cons] at h1 h2
  refine ⟨by rw [h1]; rfl, by rw [h2]; rfl, by rw [h1]; simp, by rw [h2]; simp⟩
